import Mathlib

/-!
Verification of the message-consumption layer of the missy library
(package `messaging`, file `reader.go`), as a shallow embedding.

The embedding models:
- the `Message` value (fields as in the Go struct; Go's zero value for an
  omitted `RetryCounter` field is made explicit),
- `readBroker.FetchMessage`, the adapter translating a broker-library
  record into a `Message`,
- `strconv.Atoi` as used by `NewReader` to derive the retry ceiling,
- `NewReader`, which wires the retry writer to the original topic and the
  DLQ writer to the topic with the fixed suffix ".dlq",
- one iteration of the background consume loop started by `Read`, as a
  function from the iteration's external outcomes (fetch result, callback
  result, commit result, publish results) to the list of observable
  effects (log calls, publishes, commits) plus a continue/break decision,
- `Read` and `Close` as state transitions on the reader, and
- a two-thread interleaving machine for the "already reading" guard of
  `Read`, which in the source is a plain nil-check followed by an
  assignment with no synchronization.
-/

namespace Messaging

/-- Byte strings (Go `[]byte`) are modelled as lists of naturals. -/
abbrev Bytes := List Nat

/-- Message value of the messaging package. The Go struct has fields
Topic, Key, Value, Time, Partition, Offset, RetryCounter; `Time` is
modelled as an integer timestamp. -/
structure Message where
  topic : String
  key : Bytes
  value : Bytes
  time : Int
  partition : Int
  offset : Int
  retryCounter : Int
deriving DecidableEq, Repr

/-- Broker-library record (`kafka.Message`) as seen by the adapter:
it has Topic, Key, Value, Time, Partition, Offset but no retry counter. -/
structure KafkaMessage where
  topic : String
  key : Bytes
  value : Bytes
  time : Int
  partition : Int
  offset : Int
deriving DecidableEq, Repr

/-- Adapter `readBroker.FetchMessage` (reader.go lines 49-57): given the
outcome of the underlying library fetch, on error return the zero
`Message` alongside the error; on success build a `Message` from the
record's fields. The Go composite literal omits `RetryCounter`, so that
field holds the integer zero value. -/
def readBrokerFetchMessage (res : Except String KafkaMessage) :
    Except String Message :=
  match res with
  | .error e => .error e
  | .ok m => .ok { topic := m.topic, key := m.key, value := m.value,
                   time := m.time, partition := m.partition,
                   offset := m.offset, retryCounter := 0 }

/-- Value of a decimal digit character, none for a non-digit. -/
def digitVal (c : Char) : Option Nat :=
  if c.isDigit then some (c.toNat - 48) else none

/-- Parse a nonempty all-digit character list as a natural number. -/
def parseDigits (cs : List Char) : Option Nat :=
  match cs with
  | [] => none
  | _ =>
    cs.foldl
      (fun acc c =>
        match acc, digitVal c with
        | some n, some d => some (n * 10 + d)
        | _, _ => none)
      (some 0)

/-- Model of Go `strconv.Atoi`: an optional leading sign followed by one
or more decimal digits; anything else is an error (`none`). -/
def atoi (s : String) : Option Int :=
  match s.data with
  | [] => none
  | c :: rest =>
    if c = '-' then (parseDigits rest).map (fun n => -(n : Int))
    else if c = '+' then (parseDigits rest).map (fun n => (n : Int))
    else (parseDigits (c :: rest)).map (fun n => (n : Int))

/-- Retry ceiling computed by `NewReader` (reader.go lines 101-105): the
source applies `strconv.Atoi` to the literal string "number.of.retries";
on error it logs at debug level and uses 5. -/
def newReaderNumOfRetries : Int :=
  match atoi "number.of.retries" with
  | some n => n
  | none => 5

/-- Processing callback (`ReadMessageFunc`): returns an error or nothing. -/
abbrev Callback := Message → Except String Unit

/-- State of a `missyReader`. The two `Writer` fields are represented by
the topics they were constructed for (a missy `Writer` publishes to the
single topic fixed at construction); `brokerReader` carries no modelled
state beyond the effects emitted on it. `readFunc` is the optional
registered callback (a nil-able function pointer in the source). -/
structure MissyReader where
  brokers : List String
  groupID : String
  topic : String
  readFunc : Option Callback
  writerTopic : String
  dlqWriterTopic : String
  numOfRetries : Int

/-- Constructor `NewReader` (reader.go lines 90-116): the retry writer is
built for the original topic and the DLQ writer for the topic with
".dlq" appended; no callback is registered yet. -/
def NewReader (brokers : List String) (groupID : String) (topic : String) :
    MissyReader :=
  { brokers := brokers
    groupID := groupID
    topic := topic
    readFunc := none
    writerTopic := topic
    dlqWriterTopic := topic ++ ".dlq"
    numOfRetries := newReaderNumOfRetries }

/-- Log calls made by the consume loop, each constructor one call site
with the data interpolated there. -/
inductive LogEvent where
  /-- Info log for every fetched message (reader.go line 138). -/
  | newMessage (topic : String) (partition offset retryCounter : Int)
      (key value : Bytes)
  /-- Error log of the callback error (reader.go line 140). -/
  | callbackError (err : String)
  /-- Error log before the DLQ publish (reader.go line 143). -/
  | dlqNotice
  /-- Info log of the retry number before the republish (line 146). -/
  | retryNotice (retryNumber : Int)
  /-- Error log of a failed commit (reader.go line 155). -/
  | commitError (topic : String) (partition offset : Int)
      (key value : Bytes) (err : String)
deriving DecidableEq, Repr

/-- Observable effects of the reader on its collaborators. -/
inductive Effect where
  /-- A log call. -/
  | log (e : LogEvent)
  /-- `Writer.WriteWithRetryCounter` on the writer for `topic`. -/
  | writeWithRetryCounter (topic : String) (key value : Bytes)
      (retryCounter : Int)
  /-- `Writer.Write` on the writer for `topic`. -/
  | write (topic : String) (key value : Bytes)
  /-- `BrokerReader.CommitMessages` for one message. -/
  | commit (m : Message)
  /-- `BrokerReader.Close`. -/
  | closeBroker
  /-- Closing a writer connection. Present in the effect vocabulary so
  that its absence from an operation's effects is expressible; no
  operation of `missyReader` emits it. -/
  | closeWriter (topic : String)
deriving DecidableEq, Repr

/-- Whether an effect is a publish (either writer call). -/
def Effect.isPublish : Effect → Bool
  | .writeWithRetryCounter _ _ _ _ => true
  | .write _ _ _ => true
  | _ => false

/-- Whether an effect is a commit call. -/
def Effect.isCommit : Effect → Bool
  | .commit _ => true
  | _ => false

/-- Whether an effect closes a writer connection. -/
def Effect.isCloseWriter : Effect → Bool
  | .closeWriter _ => true
  | _ => false

/-- Whether an effect is a log call that carries the string `s` as an
error payload. -/
def Effect.logCarries (eff : Effect) (s : String) : Bool :=
  match eff with
  | .log (.callbackError e) => e == s
  | .log (.commitError _ _ _ _ _ e) => e == s
  | _ => false

/-- Decision taken at the end of one loop iteration. -/
inductive StepResult where
  | breakLoop
  | continueLoop
deriving DecidableEq, Repr

/-- Outcomes of the external calls one loop iteration can make: the fetch
result, and the results the broker and the writers would return for a
commit, a retry republish, and a DLQ publish in this iteration. -/
structure LoopEnv where
  fetch : Except String Message
  commitResult : Except String Unit
  writeResult : Except String Unit
  dlqWriteResult : Except String Unit

/-- One iteration of the background consume loop of `Read` (reader.go
lines 130-157). On fetch error the loop breaks. Otherwise the message is
logged and the callback invoked; on callback error the message is either
written to the DLQ writer (when `retryCounter >= numOfRetries`) or
republished through the retry writer with the counter incremented, and
the iteration continues without commit. On callback success the message
is committed, a failed commit is logged, and the iteration continues.
The results of the two writer calls are discarded by the source, so
`env.writeResult` and `env.dlqWriteResult` are never consulted. -/
def loopIter (mr : MissyReader) (msgFunc : Callback) (env : LoopEnv) :
    List Effect × StepResult :=
  match env.fetch with
  | .error _ => ([], .breakLoop)
  | .ok message =>
    let logNew := Effect.log (.newMessage message.topic message.partition
      message.offset message.retryCounter message.key message.value)
    match msgFunc message with
    | .error e =>
      let retryCounter := message.retryCounter
      if message.retryCounter ≥ mr.numOfRetries then
        ([logNew, .log (.callbackError e), .log .dlqNotice,
          .write mr.dlqWriterTopic message.key message.value],
         .continueLoop)
      else
        ([logNew, .log (.callbackError e),
          .log (.retryNotice (retryCounter + 1)),
          .writeWithRetryCounter mr.writerTopic message.key message.value
            (retryCounter + 1)],
         .continueLoop)
    | .ok _ =>
      match env.commitResult with
      | .error ce =>
        ([logNew, .commit message,
          .log (.commitError message.topic message.partition message.offset
            message.key message.value ce)],
         .continueLoop)
      | .ok _ => ([logNew, .commit message], .continueLoop)

/-- Method `missyReader.Read` (reader.go lines 119-161) as a state
transition: its returned error, the reader state afterwards, and whether
a consume goroutine was started. With a callback already registered it
returns the "already reading" error and changes nothing; otherwise it
registers the callback, starts the loop and returns no error. -/
def missyReaderRead (mr : MissyReader) (msgFunc : Callback) :
    Except String Unit × MissyReader × Bool :=
  match mr.readFunc with
  | some _ =>
    (.error "this reader is currently reading from underlying broker",
     mr, false)
  | none => (.ok (), { mr with readFunc := some msgFunc }, true)

/-- Method `missyReader.Close` (reader.go lines 164-166): the only call
made is `brokerReader.Close()`; neither writer is touched and the reader
state (in particular `readFunc`) is left as is. -/
def missyReaderClose (mr : MissyReader) : List Effect :=
  [Effect.closeBroker]

/-- Operations a caller can perform on a reader after construction. -/
inductive ReaderOp where
  | read (cb : Callback)
  | close

/-- State after one operation: `Read` updates the state as in
`missyReaderRead`; `Close` emits only the broker close and leaves the
reader state unchanged. -/
def applyOp (mr : MissyReader) (op : ReaderOp) : MissyReader :=
  match op with
  | .read cb => (missyReaderRead mr cb).2.1
  | .close => mr

/-- State after a sequence of operations. -/
def applyOps (mr : MissyReader) (ops : List ReaderOp) : MissyReader :=
  ops.foldl applyOp mr

/-- Local view of one thread executing `missyReader.Read` concurrently:
`observed` is the value it loaded from the shared `readFunc` field (the
nil check on line 121 reads the field once), `result` is set when the
thread finishes (`true` when it registered its callback and started a
loop, `false` when it returned the "already reading" error). -/
structure ThreadView where
  observed : Option (Option Callback)
  result : Option Bool

/-- Thread not yet started. -/
def ThreadView.init : ThreadView := { observed := none, result := none }

/-- Shared state of two concurrent `Read` calls on one reader instance:
the shared `readFunc` slot and each thread's local view. -/
structure RaceState where
  readFunc : Option Callback
  t1 : ThreadView
  t2 : ThreadView

/-- One step of a thread running `Read`: first it loads the shared
`readFunc` field (the check on line 121); then, if it observed nil, it
stores its own callback and starts the loop (lines 126-129), else it
returns the error (line 122). The load and the store are separate steps
because the source has no lock or atomic around them. -/
def threadStep (cb : Callback) (shared : Option Callback)
    (tv : ThreadView) : Option Callback × ThreadView :=
  match tv.result with
  | some _ => (shared, tv)
  | none =>
    match tv.observed with
    | none => (shared, { tv with observed := some shared })
    | some obs =>
      match obs with
      | some _ => (shared, { tv with result := some false })
      | none => (some cb, { tv with result := some true })

/-- Interleaving step: `false` schedules thread 1 (callback `f`), `true`
schedules thread 2 (callback `g`). -/
def raceStep (f g : Callback) (s : RaceState) (who : Bool) : RaceState :=
  if who then
    let next := threadStep g s.readFunc s.t2
    { s with readFunc := next.1, t2 := next.2 }
  else
    let next := threadStep f s.readFunc s.t1
    { s with readFunc := next.1, t1 := next.2 }

/-- Run two concurrent `Read` calls under a given schedule, starting from
a reader with no registered callback. -/
def runSchedule (f g : Callback) (sched : List Bool) : RaceState :=
  sched.foldl (raceStep f g)
    { readFunc := none, t1 := ThreadView.init, t2 := ThreadView.init }

/-- Modelled from the spec: the retry-ceiling rule of section 6, for the
code path missing from the sources (no configuration lookup exists in
reader.go). Given the configuration value stored under the key
number.of.retries (`none` when absent), the ceiling is its numeric value,
falling back to the default 5 when the key is absent or its value is not
numeric. Used only to compare the specified behaviour with `NewReader`. -/
def specRetryCeiling (configValue : Option String) : Int :=
  match configValue with
  | none => 5
  | some s =>
    match atoi s with
    | some n => n
    | none => 5

end Messaging

namespace Messaging

/-- Concrete message with retry counter 0, used by witnesses. -/
def sampleMsg : Message :=
  { topic := "t", key := [1], value := [2], time := 0, partition := 7,
    offset := 3, retryCounter := 0 }

/-- Concrete message whose retry counter equals the ceiling. -/
def sampleMsgMax : Message :=
  { topic := "t", key := [1], value := [2], time := 0, partition := 7,
    offset := 3, retryCounter := 5 }

/-- Callback that always fails with error "cb". -/
def failCb : Callback := fun _ => .error "cb"

/-- Callback that always succeeds. -/
def okCb : Callback := fun _ => .ok ()

/-- Environment that fetches `sampleMsg` and makes every external call
succeed. -/
def sampleEnv : LoopEnv :=
  { fetch := .ok sampleMsg, commitResult := .ok (), writeResult := .ok (),
    dlqWriteResult := .ok () }

/-- Environment that fetches `sampleMsgMax` and makes every external call
succeed. -/
def sampleEnvMax : LoopEnv :=
  { fetch := .ok sampleMsgMax, commitResult := .ok (),
    writeResult := .ok (), dlqWriteResult := .ok () }

/-- Retry ceiling used by `NewReader`: always the fallback 5, because
`strconv.Atoi` of the literal key name fails. -/
theorem newReaderNumOfRetries_eq : newReaderNumOfRetries = 5 := by decide

/-- C1: when the callback fails on a fetched message whose retry counter
is below the ceiling, the iteration publishes exactly once, namely via
`WriteWithRetryCounter` on the writer for the original topic with the
message's key and value and the counter incremented by one, commits
nothing, and continues the loop. -/
theorem C1_retry_republish (brokers : List String) (groupID topic : String)
    (msgFunc : Callback) (env : LoopEnv) (m : Message) (e : String)
    (hf : env.fetch = .ok m) (hc : msgFunc m = .error e)
    (hr : m.retryCounter < (NewReader brokers groupID topic).numOfRetries) :
    ((loopIter (NewReader brokers groupID topic) msgFunc env).1.filter
        Effect.isPublish)
      = [Effect.writeWithRetryCounter topic m.key m.value
          (m.retryCounter + 1)]
    ∧ ((loopIter (NewReader brokers groupID topic) msgFunc env).1.filter
        Effect.isCommit) = []
    ∧ (loopIter (NewReader brokers groupID topic) msgFunc env).2
        = StepResult.continueLoop := by
  simp only [loopIter, hf, hc]
  rw [if_neg (not_le.mpr hr)]
  simp [Effect.isPublish, Effect.isCommit, NewReader, List.filter]

/-- Witness for C1 at a concrete reader, callback and environment. -/
theorem C1_retry_republish_witness :
    sampleEnv.fetch = .ok sampleMsg
    ∧ failCb sampleMsg = .error "cb"
    ∧ sampleMsg.retryCounter < (NewReader ["b"] "g" "t").numOfRetries
    ∧ (((loopIter (NewReader ["b"] "g" "t") failCb sampleEnv).1.filter
          Effect.isPublish)
        = [Effect.writeWithRetryCounter "t" sampleMsg.key sampleMsg.value
            (sampleMsg.retryCounter + 1)]
      ∧ ((loopIter (NewReader ["b"] "g" "t") failCb sampleEnv).1.filter
          Effect.isCommit) = []
      ∧ (loopIter (NewReader ["b"] "g" "t") failCb sampleEnv).2
          = StepResult.continueLoop) :=
  ⟨rfl, rfl, by decide,
   C1_retry_republish ["b"] "g" "t" failCb sampleEnv sampleMsg "cb"
     rfl rfl (by decide)⟩

/-- C2: when the callback fails on a fetched message whose retry counter
has reached the ceiling, the iteration publishes exactly once, namely a
plain `Write` of the unchanged key and value on the writer for the topic
with ".dlq" appended, and commits nothing. -/
theorem C2_dlq_publish (brokers : List String) (groupID topic : String)
    (msgFunc : Callback) (env : LoopEnv) (m : Message) (e : String)
    (hf : env.fetch = .ok m) (hc : msgFunc m = .error e)
    (hr : m.retryCounter ≥ (NewReader brokers groupID topic).numOfRetries) :
    ((loopIter (NewReader brokers groupID topic) msgFunc env).1.filter
        Effect.isPublish)
      = [Effect.write (topic ++ ".dlq") m.key m.value]
    ∧ ((loopIter (NewReader brokers groupID topic) msgFunc env).1.filter
        Effect.isCommit) = []
    ∧ (loopIter (NewReader brokers groupID topic) msgFunc env).2
        = StepResult.continueLoop := by
  simp only [loopIter, hf, hc]
  rw [if_pos hr]
  simp [Effect.isPublish, Effect.isCommit, NewReader, List.filter]

/-- Witness for C2 at a concrete reader, callback and environment. -/
theorem C2_dlq_publish_witness :
    sampleEnvMax.fetch = .ok sampleMsgMax
    ∧ failCb sampleMsgMax = .error "cb"
    ∧ sampleMsgMax.retryCounter ≥ (NewReader ["b"] "g" "t").numOfRetries
    ∧ (((loopIter (NewReader ["b"] "g" "t") failCb sampleEnvMax).1.filter
          Effect.isPublish)
        = [Effect.write ("t" ++ ".dlq") sampleMsgMax.key sampleMsgMax.value]
      ∧ ((loopIter (NewReader ["b"] "g" "t") failCb sampleEnvMax).1.filter
          Effect.isCommit) = []
      ∧ (loopIter (NewReader ["b"] "g" "t") failCb sampleEnvMax).2
          = StepResult.continueLoop) :=
  ⟨rfl, rfl, by decide,
   C2_dlq_publish ["b"] "g" "t" failCb sampleEnvMax sampleMsgMax "cb"
     rfl rfl (by decide)⟩

/-- C3: every message the broker adapter returns successfully has a
retry counter of zero, for every outcome of the underlying library
fetch: the adapter never populates the field. -/
theorem C3_fetched_retry_counter_zero (res : Except String KafkaMessage)
    (m : Message) (h : readBrokerFetchMessage res = .ok m) :
    m.retryCounter = 0 := by
  cases res with
  | error e => simp [readBrokerFetchMessage] at h
  | ok k =>
    simp only [readBrokerFetchMessage, Except.ok.injEq] at h
    rw [← h]

/-- Witness for C3 at a concrete fetched record. -/
theorem C3_fetched_retry_counter_zero_witness :
    readBrokerFetchMessage
        (.ok { topic := "t", key := [1], value := [2], time := 0,
               partition := 7, offset := 3 })
      = .ok sampleMsg
    ∧ sampleMsg.retryCounter = 0 :=
  ⟨rfl,
   C3_fetched_retry_counter_zero
     (.ok { topic := "t", key := [1], value := [2], time := 0,
            partition := 7, offset := 3 })
     sampleMsg rfl⟩

end Messaging

namespace Messaging

/-- Environment fetching `sampleMsgMax` in which both writer calls would
report the error "boom". -/
def sampleEnvPubErr : LoopEnv :=
  { fetch := .ok sampleMsgMax, commitResult := .ok (),
    writeResult := .error "boom", dlqWriteResult := .error "boom" }

/-- Counterexample to C4: with the callback failing at the retry ceiling
and the DLQ publish returning the error "boom", no log effect of the
iteration carries that error, and the iteration's behaviour is identical
to the one where the publish succeeds — the source discards the writer
call's result, so the publish error is not propagated as a log entry. -/
theorem C4_counterexample :
    ((loopIter (NewReader ["b"] "g" "t") failCb sampleEnvPubErr).1.any
      (fun eff => eff.logCarries "boom")) = false
    ∧ loopIter (NewReader ["b"] "g" "t") failCb sampleEnvPubErr
        = loopIter (NewReader ["b"] "g" "t") failCb sampleEnvMax := by
  exact ⟨rfl, rfl⟩

/-- C4 amended: publish errors from the retry republish or the DLQ write
are discarded — the iteration's effects and continue/break decision are
the same whatever the writer calls would return, and after a callback
failure the loop continues to the next fetch. -/
theorem C4_publish_error_discarded (mr : MissyReader) (msgFunc : Callback)
    (env : LoopEnv) (w d : Except String Unit) :
    loopIter mr msgFunc
        { env with writeResult := w, dlqWriteResult := d }
      = loopIter mr msgFunc env
    ∧ (∀ m e, env.fetch = .ok m → msgFunc m = .error e →
        (loopIter mr msgFunc env).2 = StepResult.continueLoop) := by
  constructor
  · rfl
  · intro m e hf hc
    simp only [loopIter, hf, hc]
    by_cases h : m.retryCounter ≥ mr.numOfRetries
    · rw [if_pos h]
    · rw [if_neg h]

/-- Witness for the amended C4 at a concrete reader and environment. -/
theorem C4_publish_error_discarded_witness :
    sampleEnvMax.fetch = .ok sampleMsgMax
    ∧ failCb sampleMsgMax = .error "cb"
    ∧ loopIter (NewReader ["b"] "g" "t") failCb
        { sampleEnvMax with writeResult := .error "x",
                            dlqWriteResult := .error "y" }
        = loopIter (NewReader ["b"] "g" "t") failCb sampleEnvMax
    ∧ (loopIter (NewReader ["b"] "g" "t") failCb sampleEnvMax).2
        = StepResult.continueLoop :=
  ⟨rfl, rfl,
   (C4_publish_error_discarded (NewReader ["b"] "g" "t") failCb
      sampleEnvMax (.error "x") (.error "y")).1,
   (C4_publish_error_discarded (NewReader ["b"] "g" "t") failCb
      sampleEnvMax (.error "x") (.error "y")).2 sampleMsgMax "cb" rfl rfl⟩

/-- Counterexample to C5: `Close` on a freshly constructed reader emits
exactly the broker close and no writer-close effect at all — the retry
and DLQ writer connections are not released. -/
theorem C5_counterexample :
    missyReaderClose (NewReader ["b"] "g" "t") = [Effect.closeBroker]
    ∧ ((missyReaderClose (NewReader ["b"] "g" "t")).any
        Effect.isCloseWriter) = false :=
  ⟨rfl, rfl⟩

/-- C5 amended: `Close` releases only the broker connection (its effects
are exactly the broker close; it closes no writer connection), and the
background consume loop terminates once its current fetch fails. -/
theorem C5_close_broker_only (brokers : List String)
    (groupID topic : String) (msgFunc : Callback) (env : LoopEnv)
    (e : String) :
    missyReaderClose (NewReader brokers groupID topic)
      = [Effect.closeBroker]
    ∧ ((missyReaderClose (NewReader brokers groupID topic)).any
        Effect.isCloseWriter) = false
    ∧ (env.fetch = .error e →
        loopIter (NewReader brokers groupID topic) msgFunc env
          = ([], StepResult.breakLoop)) := by
  refine ⟨rfl, rfl, fun hf => ?_⟩
  simp only [loopIter, hf]

/-- Witness for the amended C5 at a concrete reader and a failing fetch. -/
theorem C5_close_broker_only_witness :
    ({ fetch := .error "closed", commitResult := .ok (),
       writeResult := .ok (), dlqWriteResult := .ok () } : LoopEnv).fetch
      = .error "closed"
    ∧ missyReaderClose (NewReader ["b"] "g" "t") = [Effect.closeBroker]
    ∧ loopIter (NewReader ["b"] "g" "t") okCb
        { fetch := .error "closed", commitResult := .ok (),
          writeResult := .ok (), dlqWriteResult := .ok () }
        = ([], StepResult.breakLoop) :=
  ⟨rfl,
   (C5_close_broker_only ["b"] "g" "t" okCb
      { fetch := .error "closed", commitResult := .ok (),
        writeResult := .ok (), dlqWriteResult := .ok () } "closed").1,
   (C5_close_broker_only ["b"] "g" "t" okCb
      { fetch := .error "closed", commitResult := .ok (),
        writeResult := .ok (), dlqWriteResult := .ok () } "closed").2.2
     rfl⟩

/-- Counterexample to C6: with the configuration value "7" stored under
the retry key, the specified ceiling is 7, but the constructed reader's
ceiling is 5 — the constructor never consults configuration, it parses
the literal key name, which always fails to the default. -/
theorem C6_counterexample :
    specRetryCeiling (some "7") = 7
    ∧ (NewReader ["b"] "g" "t").numOfRetries = 5
    ∧ specRetryCeiling (some "7")
        ≠ (NewReader ["b"] "g" "t").numOfRetries := by
  refine ⟨by decide, ?_, by decide⟩
  show newReaderNumOfRetries = 5
  exact newReaderNumOfRetries_eq

/-- C6 amended: the retry ceiling of every constructed reader equals the
default 5, because `strconv.Atoi` applied to the literal string
"number.of.retries" always fails; no configuration value can influence
it. -/
theorem C6_ceiling_always_default (brokers : List String)
    (groupID topic : String) :
    (NewReader brokers groupID topic).numOfRetries = 5
    ∧ atoi "number.of.retries" = none := by
  refine ⟨?_, by decide⟩
  show newReaderNumOfRetries = 5
  exact newReaderNumOfRetries_eq

end Messaging

namespace Messaging

/-- C7: when the callback succeeds on a fetched message, the iteration
makes exactly one commit call for that message, publishes nothing to the
retry or DLQ writers, continues the loop, and if the commit call fails
the failure is logged with the message's coordinates and the commit
error. -/
theorem C7_commit_on_success (mr : MissyReader) (msgFunc : Callback)
    (env : LoopEnv) (m : Message)
    (hf : env.fetch = .ok m) (hc : msgFunc m = .ok ()) :
    ((loopIter mr msgFunc env).1.filter Effect.isCommit)
      = [Effect.commit m]
    ∧ ((loopIter mr msgFunc env).1.filter Effect.isPublish) = []
    ∧ (loopIter mr msgFunc env).2 = StepResult.continueLoop
    ∧ (∀ ce, env.commitResult = .error ce →
        Effect.log (.commitError m.topic m.partition m.offset m.key
          m.value ce) ∈ (loopIter mr msgFunc env).1) := by
  simp only [loopIter, hf, hc]
  cases hcr : env.commitResult with
  | error ce =>
    refine ⟨?_, ?_, rfl, ?_⟩
    · simp [Effect.isCommit, List.filter]
    · simp [Effect.isPublish, List.filter]
    · intro ce2 hce
      injection hce with heq
      subst heq
      simp
  | ok u =>
    refine ⟨?_, ?_, rfl, ?_⟩
    · simp [Effect.isCommit, List.filter]
    · simp [Effect.isPublish, List.filter]
    · intro ce2 hce
      simp at hce

/-- Witness for C7 at a concrete reader with a failing commit. -/
theorem C7_commit_on_success_witness :
    ({ fetch := .ok sampleMsg, commitResult := .error "nope",
       writeResult := .ok (), dlqWriteResult := .ok () } : LoopEnv).fetch
      = .ok sampleMsg
    ∧ okCb sampleMsg = .ok ()
    ∧ (((loopIter (NewReader ["b"] "g" "t") okCb
          { fetch := .ok sampleMsg, commitResult := .error "nope",
            writeResult := .ok (), dlqWriteResult := .ok () }).1.filter
          Effect.isCommit) = [Effect.commit sampleMsg]
      ∧ Effect.log (.commitError sampleMsg.topic sampleMsg.partition
          sampleMsg.offset sampleMsg.key sampleMsg.value "nope")
          ∈ (loopIter (NewReader ["b"] "g" "t") okCb
              { fetch := .ok sampleMsg, commitResult := .error "nope",
                writeResult := .ok (), dlqWriteResult := .ok () }).1) :=
  ⟨rfl, rfl,
   (C7_commit_on_success (NewReader ["b"] "g" "t") okCb
      { fetch := .ok sampleMsg, commitResult := .error "nope",
        writeResult := .ok (), dlqWriteResult := .ok () } sampleMsg
      rfl rfl).1,
   (C7_commit_on_success (NewReader ["b"] "g" "t") okCb
      { fetch := .ok sampleMsg, commitResult := .error "nope",
        writeResult := .ok (), dlqWriteResult := .ok () } sampleMsg
      rfl rfl).2.2.2 "nope" rfl⟩

/-- C8: `Read` on a reader with a registered callback returns the
"already reading" error, leaves the state unchanged and starts no loop;
`Read` on a reader with no registered callback returns no error,
registers the callback and starts the loop. -/
theorem C8_double_read_guard (mr : MissyReader) (msgFunc : Callback) :
    (mr.readFunc.isSome = true →
      missyReaderRead mr msgFunc
        = (.error "this reader is currently reading from underlying broker",
           mr, false))
    ∧ (mr.readFunc = none →
      missyReaderRead mr msgFunc
        = (.ok (), { mr with readFunc := some msgFunc }, true)) := by
  constructor
  · intro h
    cases hr : mr.readFunc with
    | none => rw [hr] at h; simp at h
    | some f => simp only [missyReaderRead, hr]
  · intro h
    simp only [missyReaderRead, h]

/-- Witness for C8 on a reading and a fresh reader. -/
theorem C8_double_read_guard_witness :
    ({ NewReader ["b"] "g" "t" with
        readFunc := some okCb } : MissyReader).readFunc.isSome = true
    ∧ missyReaderRead
        { NewReader ["b"] "g" "t" with readFunc := some okCb } failCb
        = (.error "this reader is currently reading from underlying broker",
           { NewReader ["b"] "g" "t" with readFunc := some okCb }, false)
    ∧ (NewReader ["b"] "g" "t").readFunc = none
    ∧ missyReaderRead (NewReader ["b"] "g" "t") okCb
        = (.ok (),
           { NewReader ["b"] "g" "t" with readFunc := some okCb }, true) :=
  ⟨rfl,
   (C8_double_read_guard
      { NewReader ["b"] "g" "t" with readFunc := some okCb } failCb).1 rfl,
   rfl,
   (C8_double_read_guard (NewReader ["b"] "g" "t") okCb).2 rfl⟩

/-- C9: the source's "already reading" guard is a plain field check
followed by a plain assignment with no lock or atomic, so under the
interleaving load-1, load-2, store-1, store-2 two concurrent `Read`
calls both observe no registered callback and both start a consume loop,
while under a serialized schedule exactly one of them starts. -/
theorem C9_guard_not_atomic :
    (runSchedule okCb failCb [false, true, false, true]).t1.result
      = some true
    ∧ (runSchedule okCb failCb [false, true, false, true]).t2.result
        = some true
    ∧ (runSchedule okCb failCb [false, false, true, true]).t1.result
        = some true
    ∧ (runSchedule okCb failCb [false, false, true, true]).t2.result
        = some false :=
  ⟨rfl, rfl, rfl, rfl⟩

/-- Registering a callback through `Read` is preserved by every later
operation: `Read` never clears the slot and `Close` does not touch it. -/
theorem applyOp_keeps_readFunc (mr : MissyReader) (op : ReaderOp)
    (h : mr.readFunc.isSome = true) :
    (applyOp mr op).readFunc.isSome = true := by
  cases op with
  | close => exact h
  | read cb =>
    cases hr : mr.readFunc with
    | none => rw [hr] at h; simp at h
    | some f => simp only [applyOp, missyReaderRead, hr]; rfl

/-- A registered callback survives any sequence of operations. -/
theorem applyOps_keeps_readFunc (ops : List ReaderOp) (mr : MissyReader)
    (h : mr.readFunc.isSome = true) :
    (applyOps mr ops).readFunc.isSome = true := by
  induction ops generalizing mr with
  | nil => exact h
  | cons op rest ih => exact ih (applyOp mr op) (applyOp_keeps_readFunc mr op h)

/-- C10: once `Read` has succeeded on a reader, no sequence of further
`Read` or `Close` operations ever clears the registered callback, and
every subsequent `Read` — including after `Close` — returns the
"already reading" error: a reader can never be restarted. -/
theorem C10_no_restart (mr : MissyReader) (msgFunc : Callback)
    (ops : List ReaderOp) (h : mr.readFunc = none) :
    ((applyOps (missyReaderRead mr msgFunc).2.1 ops).readFunc.isSome
      = true)
    ∧ (∀ cb, (missyReaderRead
          (applyOps (missyReaderRead mr msgFunc).2.1 ops) cb).1
        = .error "this reader is currently reading from underlying broker") := by
  have hstart : ((missyReaderRead mr msgFunc).2.1).readFunc.isSome = true := by
    simp only [missyReaderRead, h]
    rfl
  have hall := applyOps_keeps_readFunc ops _ hstart
  refine ⟨hall, fun cb => ?_⟩
  generalize hX : applyOps (missyReaderRead mr msgFunc).2.1 ops = X at hall
  cases hr : X.readFunc with
  | none => rw [hr] at hall; simp at hall
  | some f => simp only [missyReaderRead, hr]

/-- Witness for C10: a fresh reader that is read, closed, read again. -/
theorem C10_no_restart_witness :
    (NewReader ["b"] "g" "t").readFunc = none
    ∧ ((applyOps (missyReaderRead (NewReader ["b"] "g" "t") okCb).2.1
          [ReaderOp.close, ReaderOp.read failCb]).readFunc.isSome = true)
    ∧ (missyReaderRead
          (applyOps (missyReaderRead (NewReader ["b"] "g" "t") okCb).2.1
            [ReaderOp.close, ReaderOp.read failCb]) failCb).1
        = .error "this reader is currently reading from underlying broker" :=
  ⟨rfl,
   (C10_no_restart (NewReader ["b"] "g" "t") okCb
      [ReaderOp.close, ReaderOp.read failCb] rfl).1,
   (C10_no_restart (NewReader ["b"] "g" "t") okCb
      [ReaderOp.close, ReaderOp.read failCb] rfl).2 failCb⟩

end Messaging
